import Mathlib

set_option maxRecDepth 8192

set_option linter.unusedVariables false

/-!
Verification development for the key-envelope core in
src/resources/js/Cipher.mjs.

The core is the JavaScript class Cipher with a constructor storing
privateKey, publicKey and salt, an instance method export, and static
methods generate and import.  The external collaborators (the Password
provider from Password.mjs, the base16 codec from Util/base16.mjs, and
the host Web Crypto provider) are not part of the core; they are
embedded as an abstract Host structure whose fields carry exactly the
interfaces the core calls, and the laws the specification attributes to
them appear as hypotheses of the theorems.  A concrete executable Host
instance is provided so that every theorem with hypotheses can be
exercised on concrete data.

Bytes are lists of Fin 256 (a JS Uint8Array / ArrayBuffer is a byte
sequence).  Fallible collaborator calls return Option; the core's
methods return Except CipherError, with a distinct error constructor
per failure source, embedding the distinct JS exceptions that propagate
out of each collaborator (decode failure, unwrap failure, SPKI
key-import failure, password-unavailable failure).
-/

deriving instance DecidableEq for Except

/-- A byte, as stored in a Uint8Array. -/
abbrev Byte := Fin 256

/-- A byte sequence (Uint8Array / ArrayBuffer contents). -/
abbrev Bytes := List Byte

/-- A password value, as handled by the Password provider. -/
abbrev Password := String

/-- Modelled from the spec: the hexadecimal digit characters used by the
base16 codec (src/resources/js/Util/base16.mjs, not under src/):
lowercase hex. -/
def hexDigitChar (n : Nat) : Char :=
  if n < 10 then Char.ofNat (48 + n) else Char.ofNat (87 + n)

/-- Modelled from the spec: the value of one hexadecimal character;
fails on anything outside 0-9, a-f. -/
def hexDigitVal (c : Char) : Option (Fin 16) :=
  if h : 48 ≤ c.toNat ∧ c.toNat < 58 then some ⟨c.toNat - 48, by omega⟩
  else if h : 97 ≤ c.toNat ∧ c.toNat < 103 then some ⟨c.toNat - 87, by omega⟩
  else none

/-- The byte with high nibble hi and low nibble lo. -/
def mkByte (hi lo : Fin 16) : Byte :=
  ⟨hi.val * 16 + lo.val, by have h1 := hi.isLt; have h2 := lo.isLt; omega⟩

/-- Modelled from the spec: base16 encoding of one byte as two lowercase
hex characters. -/
def byteToHexChars (b : Byte) : List Char :=
  [hexDigitChar (b.val / 16), hexDigitChar (b.val % 16)]

/-- Modelled from the spec: the base16 codec's encode direction,
`encode(bytes) -> string`, lowercase hex, no separators. -/
def hexEncodeBytes (bs : Bytes) : String :=
  ⟨(bs.map byteToHexChars).flatten⟩

/-- Modelled from the spec: the base16 codec's decode direction on a
character list; fails on a non-hex character or odd length. -/
def hexDecodeCharList : List Char → Option Bytes
  | [] => some []
  | c1 :: c2 :: rest =>
    match hexDigitVal c1, hexDigitVal c2, hexDecodeCharList rest with
    | some hi, some lo, some bs => some (mkByte hi lo :: bs)
    | _, _, _ => none
  | [_] => none

/-- Modelled from the spec: the base16 codec's decode direction,
`decode(string) -> bytes`; fails on non-hex input or odd length. -/
def hexDecodeStr (s : String) : Option Bytes :=
  hexDecodeCharList s.data

/-- A Web Crypto key usage, as appears in the string arrays passed to
generateKey and importKey in Cipher.mjs. -/
inductive KeyUsage where
  | encrypt
  | decrypt
  | wrapKey
  | unwrapKey
deriving DecidableEq

/-- An opaque CryptoKey handle as the host Web Crypto provider hands it
out: algorithm name and hash, the extractable flag, the granted usages,
and an abstract identifier for the underlying mathematical key
material. -/
structure CryptoKey where
  algName : String
  hash : String
  extractable : Bool
  usages : List KeyUsage
  material : Nat
deriving DecidableEq

/-- The algorithm object passed to crypto.subtle.generateKey
(Cipher.mjs lines 50-55). -/
structure RsaHashedKeyGenParams where
  name : String
  modulusLength : Nat
  publicExponent : Bytes
  hash : String
deriving DecidableEq

/-- The algorithm object passed to crypto.subtle.importKey
(Cipher.mjs lines 86-89). -/
structure RsaHashedImportParams where
  name : String
  hash : String
deriving DecidableEq

/-- Big-endian integer value of a byte sequence; the Web Crypto
publicExponent field is a big-endian Uint8Array. -/
def beNat (bs : Bytes) : Nat :=
  bs.foldl (fun acc b => acc * 256 + b.val) 0

/-- The external collaborators of the core, as one record of abstract
operations.  recall, wrap and unwrap are the Password provider
(Password.mjs, not under src/; interface from the spec: recall fails
when no ambient password exists, wrap and unwrap are the password-based
key wrap and its inverse).  hexEncode and hexDecode are the base16
codec.  The remaining fields are the host Web Crypto provider: SPKI
serialization and parsing of public-key material, the assignment of
fresh key material to a generated key pair, and the RSA-OAEP
encrypt/decrypt primitives used to state functional equivalence of
keys. -/
structure Host where
  recallPassword : Option Password
  wrap : Password → CryptoKey → Bytes → Bytes
  unwrap : Password → Bytes → Bytes → Option CryptoKey
  hexEncode : Bytes → String
  hexDecode : String → Option Bytes
  spkiExportBytes : Nat → Bytes
  spkiParse : Bytes → Option Nat
  pubMaterialOf : Nat → Nat
  privMaterialOf : Nat → Nat
  encrypt : Nat → Bytes → Bytes
  decrypt : Nat → Bytes → Option Bytes

/-- The randomness a run of generate consumes: the host random byte
stream read by crypto.getRandomValues, and the identifier of the fresh
key pair the host creates in crypto.subtle.generateKey. -/
structure Entropy where
  byteAt : Nat → Byte
  keyId : Nat

/-- crypto.getRandomValues(new Uint8Array(n)): the host fills exactly n
bytes from its random source. -/
def getRandomValues (ent : Entropy) (n : Nat) : Bytes :=
  (List.range n).map ent.byteAt

/-- The usages Web Crypto allows an RSA-OAEP public key. -/
def publicKeyUsages : List KeyUsage := [.encrypt, .wrapKey]

/-- The usages Web Crypto allows an RSA-OAEP private key. -/
def privateKeyUsages : List KeyUsage := [.decrypt, .unwrapKey]

/-- Models the host's crypto.subtle.generateKey for RSA-OAEP: the
requested usages are distributed over the pair, the public key
receiving the encrypt/wrapKey usages and the private key the
decrypt/unwrapKey usages; both handles carry the requested algorithm,
hash and extractable flag, and fresh material derived from the
generation randomness.  Returns (publicKey, privateKey). -/
def subtleGenerateKey (H : Host) (alg : RsaHashedKeyGenParams) (extractable : Bool)
    (keyUsages : List KeyUsage) (keyId : Nat) : CryptoKey × CryptoKey :=
  ({ algName := alg.name, hash := alg.hash, extractable := extractable,
     usages := keyUsages.filter (fun u => decide (u ∈ publicKeyUsages)),
     material := H.pubMaterialOf keyId },
   { algName := alg.name, hash := alg.hash, extractable := extractable,
     usages := keyUsages.filter (fun u => decide (u ∈ privateKeyUsages)),
     material := H.privMaterialOf keyId })

/-- Models the host's crypto.subtle.exportKey('spki', key): SPKI
serialization of the public key's material.  (Extractability checking
is elided: every key the core hands to exportKey was created with
extractable set to true.) -/
def subtleExportKey (H : Host) (key : CryptoKey) : Bytes :=
  H.spkiExportBytes key.material

/-- Models the host's crypto.subtle.importKey('spki', bytes, alg,
extractable, usages): parse the SPKI bytes and, on success, hand out a
key with exactly the requested algorithm, extractable flag and
usages. -/
def subtleImportKey (H : Host) (bytes : Bytes) (alg : RsaHashedImportParams)
    (extractable : Bool) (keyUsages : List KeyUsage) : Option CryptoKey :=
  (H.spkiParse bytes).map fun m =>
    { algName := alg.name, hash := alg.hash, extractable := extractable,
      usages := keyUsages, material := m }

/-- The distinct failure kinds that can propagate out of the core's
methods, one per failing collaborator call. -/
inductive CipherError where
  | decodeError
  | unwrapError
  | spkiImportError
  | passwordUnavailable
deriving DecidableEq

/-- The external Envelope Record {k, p, s} of Cipher.mjs: three
hex-string fields. -/
structure EnvelopeRecord where
  k : String
  p : String
  s : String
deriving DecidableEq

/-- The Cipher class's instance state: the three fields assigned by the
constructor (Cipher.mjs lines 9-15). -/
structure Cipher where
  privateKey : CryptoKey
  publicKey : CryptoKey
  salt : Bytes
deriving DecidableEq

/-- The line `password ??= await Password.recallPassword()` shared by export
and import: an explicitly passed password is used as-is; a missing one
is recalled, and a failing recall aborts the call. -/
def resolvePassword (H : Host) (password : Option Password) : Except CipherError Password :=
  match password with
  | some pw => .ok pw
  | none =>
    match H.recallPassword with
    | some pw => .ok pw
    | none => .error .passwordUnavailable

/-- The algorithm argument of crypto.subtle.generateKey in
Cipher.generate (Cipher.mjs lines 50-55): RSA-OAEP, 4096-bit modulus,
publicExponent the big-endian bytes [1, 0, 1], SHA-256. -/
def generateKeyAlgorithm : RsaHashedKeyGenParams :=
  { name := "RSA-OAEP", modulusLength := 4096, publicExponent := [1, 0, 1],
    hash := "SHA-256" }

/-- The usages argument of crypto.subtle.generateKey in Cipher.generate
(Cipher.mjs line 57). -/
def generateKeyUsages : List KeyUsage := [.encrypt, .decrypt, .wrapKey, .unwrapKey]

/-- The algorithm argument of crypto.subtle.importKey in Cipher.import
(Cipher.mjs lines 86-89). -/
def importKeyAlgorithm : RsaHashedImportParams :=
  { name := "RSA-OAEP", hash := "SHA-256" }

/-- The usages argument of crypto.subtle.importKey in Cipher.import
(Cipher.mjs line 91). -/
def importKeyUsages : List KeyUsage := [.encrypt, .wrapKey]

/-- Cipher.generate (Cipher.mjs lines 45-64): draw a 16-byte salt and
generate an RSA-OAEP key pair (the two awaited together via
Promise.all; both are total here), then construct the envelope. -/
def Cipher.generate (H : Host) (ent : Entropy) : Cipher :=
  let salt := getRandomValues ent 16
  let keyPair := subtleGenerateKey H generateKeyAlgorithm true generateKeyUsages ent.keyId
  { privateKey := keyPair.2, publicKey := keyPair.1, salt := salt }

/-- Cipher.export (Cipher.mjs lines 23-38); named exportRecord because
export is a reserved word.  Resolve the password, wrap the private key
with password and salt, export the public key to SPKI, and hex-encode
the three fields into the record. -/
def Cipher.exportRecord (H : Host) (c : Cipher) (password : Option Password) :
    Except CipherError EnvelopeRecord :=
  match resolvePassword H password with
  | .error e => .error e
  | .ok pw =>
    let wrappedPrivateKey := H.wrap pw c.privateKey c.salt
    let exportedPublicKey := subtleExportKey H c.publicKey
    .ok { k := H.hexEncode wrappedPrivateKey,
          p := H.hexEncode exportedPublicKey,
          s := H.hexEncode c.salt }

/-- Cipher.import (Cipher.mjs lines 73-100); named importRecord because
the name import is reserved.  Resolve the password; hex-decode s, p and k
in source order, a failure raising the codec's decode error before any
cryptographic call; then unwrap the private key and import the public
key from SPKI (awaited together via Promise.all in the source,
sequentialized here in array order), and construct the envelope. -/
def Cipher.importRecord (H : Host) (r : EnvelopeRecord) (password : Option Password) :
    Except CipherError Cipher :=
  match resolvePassword H password with
  | .error e => .error e
  | .ok pw =>
    match H.hexDecode r.s with
    | none => .error .decodeError
    | some salt =>
      match H.hexDecode r.p with
      | none => .error .decodeError
      | some exportedPublicKey =>
        match H.hexDecode r.k with
        | none => .error .decodeError
        | some wrappedPrivateKey =>
          match H.unwrap pw wrappedPrivateKey salt with
          | none => .error .unwrapError
          | some privateKey =>
            match subtleImportKey H exportedPublicKey importKeyAlgorithm true importKeyUsages with
            | none => .error .spkiImportError
            | some publicKey => .ok { privateKey := privateKey, publicKey := publicKey, salt := salt }

/-- Cipher.export in state-passing form, making the envelope's
post-state explicit: the method body (Cipher.mjs lines 23-38) only
reads this.privateKey, this.publicKey and this.salt and assigns none of
them, so the post-state's three fields are the three fields the
constructor assigned. -/
def Cipher.exportWithState (H : Host) (c : Cipher) (password : Option Password) :
    Except CipherError (EnvelopeRecord × Cipher) :=
  match resolvePassword H password with
  | .error e => .error e
  | .ok pw =>
    let wrappedPrivateKey := H.wrap pw c.privateKey c.salt
    let exportedPublicKey := subtleExportKey H c.publicKey
    .ok ({ k := H.hexEncode wrappedPrivateKey,
           p := H.hexEncode exportedPublicKey,
           s := H.hexEncode c.salt },
         { privateKey := c.privateKey, publicKey := c.publicKey, salt := c.salt })

/-- The bytes of a password string, one byte per character code (mod
256); used by the concrete collaborator instance below. -/
def pwBytes (pw : Password) : Bytes :=
  pw.data.map fun ch => ⟨ch.toNat % 256, by omega⟩

/-- The private-key handle the concrete collaborator instance's unwrap
hands back: exactly the private key that Cipher.generate produces on
the concrete entropy ent0 below. -/
def K0priv : CryptoKey :=
  { algName := "RSA-OAEP", hash := "SHA-256", extractable := true,
    usages := [.decrypt, .unwrapKey], material := 1 }

/-- A concrete, fully executable collaborator instance: the base16
codec is the spec's lowercase hex codec; wrap tags the wrapped bytes
with the password and unwrap checks that tag, handing back K0priv on a
match and failing otherwise; SPKI serialization is a one-byte encoding
of the key material; encrypt and decrypt are the identity pair.  Used
to evaluate the theorems on concrete data. -/
def Host0 : Host :=
  { recallPassword := none,
    wrap := fun pw _key _salt => pwBytes pw,
    unwrap := fun pw bs _salt => if bs = pwBytes pw then some K0priv else none,
    hexEncode := hexEncodeBytes,
    hexDecode := hexDecodeStr,
    spkiExportBytes := fun m => [⟨m % 256, by omega⟩],
    spkiParse := fun bs => match bs with | [b] => some b.val | _ => none,
    pubMaterialOf := fun kid => 2 * kid,
    privMaterialOf := fun kid => 2 * kid + 1,
    encrypt := fun _ msg => msg,
    decrypt := fun _ ct => some ct }

/-- A concrete entropy source: random bytes 0, 1, 2, ... and key-pair
identifier 0. -/
def ent0 : Entropy :=
  { byteAt := fun i => ⟨i % 256, by omega⟩, keyId := 0 }

/-- The salt Cipher.generate draws on the concrete entropy ent0:
bytes 0 through 15. -/
def salt0 : Bytes := getRandomValues ent0 16

/-- The record Cipher.export produces from the envelope generated on
ent0 under Host0 with password "p": k is the hex of pwBytes "p",
p the hex of the one-byte SPKI encoding of material 0, s the hex of
salt0. -/
def r0 : EnvelopeRecord :=
  ⟨"70", "00", "000102030405060708090a0b0c0d0e0f"⟩

theorem okExport_iff (H : Host) (c : Cipher) (pwOpt : Option Password) (r : EnvelopeRecord) :
    Cipher.exportRecord H c pwOpt = .ok r ↔
    ∃ pw, resolvePassword H pwOpt = .ok pw ∧
      r = ⟨H.hexEncode (H.wrap pw c.privateKey c.salt),
           H.hexEncode (subtleExportKey H c.publicKey),
           H.hexEncode c.salt⟩ := by
  constructor
  · intro h
    unfold Cipher.exportRecord at h
    split at h
    · simp at h
    next pw heq =>
      exact ⟨pw, heq, by simp only [Except.ok.injEq] at h; exact h.symm⟩
  · rintro ⟨pw, hres, rfl⟩
    simp [Cipher.exportRecord, hres]

theorem okImport_iff (H : Host) (r : EnvelopeRecord) (pwOpt : Option Password) (c' : Cipher) :
    Cipher.importRecord H r pwOpt = .ok c' ↔
    ∃ pw salt pub wrapped priv m,
      resolvePassword H pwOpt = .ok pw ∧
      H.hexDecode r.s = some salt ∧
      H.hexDecode r.p = some pub ∧
      H.hexDecode r.k = some wrapped ∧
      H.unwrap pw wrapped salt = some priv ∧
      H.spkiParse pub = some m ∧
      c' = ⟨priv, ⟨"RSA-OAEP", "SHA-256", true, importKeyUsages, m⟩, salt⟩ := by
  constructor
  · intro h
    unfold Cipher.importRecord at h
    split at h
    · simp at h
    next pw heq =>
      split at h
      · simp at h
      next salt heq1 =>
        split at h
        · simp at h
        next pub heq2 =>
          split at h
          · simp at h
          next wrapped heq3 =>
            split at h
            · simp at h
            next priv heq4 =>
              split at h
              · simp at h
              next pubkey heq5 =>
                simp only [Except.ok.injEq] at h
                subst h
                unfold subtleImportKey at heq5
                obtain ⟨m, hm, hfm⟩ := Option.map_eq_some'.mp heq5
                refine ⟨pw, salt, pub, wrapped, priv, m, heq, heq1, heq2, heq3, heq4, hm, ?_⟩
                rw [← hfm]
                rfl
  · rintro ⟨pw, salt, pub, wrapped, priv, m, hres, h1, h2, h3, h4, h5, rfl⟩
    simp [Cipher.importRecord, hres, h1, h2, h3, h4, h5, subtleImportKey, importKeyAlgorithm]

/-- C5: generate() draws 16 bytes of randomness for the salt and
generates an RSA-OAEP key pair with a 4096-bit modulus, public
exponent 65537 (big-endian bytes 1, 0, 1) and SHA-256 as hash, the
resulting private key supporting decrypt and unwrap-key and the
resulting public key supporting encrypt and wrap-key. -/
theorem c5_generate_parameters (H : Host) (ent : Entropy) :
    (Cipher.generate H ent).salt = getRandomValues ent 16 ∧
    (Cipher.generate H ent).salt.length = 16 ∧
    generateKeyAlgorithm.name = "RSA-OAEP" ∧
    generateKeyAlgorithm.modulusLength = 4096 ∧
    beNat generateKeyAlgorithm.publicExponent = 65537 ∧
    generateKeyAlgorithm.hash = "SHA-256" ∧
    (Cipher.generate H ent).privateKey.usages = [KeyUsage.decrypt, KeyUsage.unwrapKey] ∧
    (Cipher.generate H ent).publicKey.usages = [KeyUsage.encrypt, KeyUsage.wrapKey] ∧
    (Cipher.generate H ent).privateKey =
      (subtleGenerateKey H generateKeyAlgorithm true generateKeyUsages ent.keyId).2 ∧
    (Cipher.generate H ent).publicKey =
      (subtleGenerateKey H generateKeyAlgorithm true generateKeyUsages ent.keyId).1 := by
  refine ⟨rfl, ?_, rfl, rfl, rfl, rfl, rfl, rfl, rfl, rfl⟩
  simp [Cipher.generate, getRandomValues]

/-- C6: the public key reconstructed by import() carries exactly the
encrypt and wrap-key usages, the same capability set a freshly
generated envelope's public key carries. -/
theorem c6_imported_public_key_usages (H : Host) (r : EnvelopeRecord) (pwOpt : Option Password)
    (c' : Cipher) (h : Cipher.importRecord H r pwOpt = .ok c') :
    c'.publicKey.usages = [KeyUsage.encrypt, KeyUsage.wrapKey] ∧
    ∀ ent : Entropy, (Cipher.generate H ent).publicKey.usages = c'.publicKey.usages := by
  obtain ⟨pw, salt, pub, wrapped, priv, m, _, _, _, _, _, _, rfl⟩ := (okImport_iff H r pwOpt c').mp h
  exact ⟨rfl, fun ent => rfl⟩

/-- Witness for C6 on the concrete collaborator instance. -/
theorem c6_imported_public_key_usages_witness :
    ∃ c', Cipher.importRecord Host0 r0 (some "p") = .ok c' ∧
      c'.publicKey.usages = [KeyUsage.encrypt, KeyUsage.wrapKey] ∧
      (Cipher.generate Host0 ent0).publicKey.usages = c'.publicKey.usages := by
  have himp : Cipher.importRecord Host0 r0 (some "p") =
      .ok ⟨K0priv, ⟨"RSA-OAEP", "SHA-256", true, importKeyUsages, 0⟩, salt0⟩ := by decide
  obtain ⟨h1, h2⟩ := c6_imported_public_key_usages Host0 r0 (some "p") _ himp
  exact ⟨_, himp, h1, h2 ent0⟩

/-- C10: every key handle this core creates is marked extractable:
generate() passes true for extractable, so both generated handles are
extractable, and import() passes true when reconstructing the public
key. -/
theorem c10_keys_extractable (H : Host) (ent : Entropy) (r : EnvelopeRecord)
    (pwOpt : Option Password) (c' : Cipher) (h : Cipher.importRecord H r pwOpt = .ok c') :
    (Cipher.generate H ent).privateKey.extractable = true ∧
    (Cipher.generate H ent).publicKey.extractable = true ∧
    c'.publicKey.extractable = true := by
  obtain ⟨pw, salt, pub, wrapped, priv, m, _, _, _, _, _, _, rfl⟩ := (okImport_iff H r pwOpt c').mp h
  exact ⟨rfl, rfl, rfl⟩

/-- Witness for C10 on the concrete collaborator instance. -/
theorem c10_keys_extractable_witness :
    ∃ c', Cipher.importRecord Host0 r0 (some "p") = .ok c' ∧
      (Cipher.generate Host0 ent0).privateKey.extractable = true ∧
      (Cipher.generate Host0 ent0).publicKey.extractable = true ∧
      c'.publicKey.extractable = true := by
  have himp : Cipher.importRecord Host0 r0 (some "p") =
      .ok ⟨K0priv, ⟨"RSA-OAEP", "SHA-256", true, importKeyUsages, 0⟩, salt0⟩ := by decide
  obtain ⟨h1, h2, h3⟩ := c10_keys_extractable Host0 ent0 r0 (some "p") _ himp
  exact ⟨_, himp, h1, h2, h3⟩

/-- C4: the s field of a successfully exported record hex-decodes to
exactly the salt bytes of the envelope that produced it, given that
the codec's decode inverts its encode on those bytes. -/
theorem c4_salt_stability (H : Host) (c : Cipher) (pwOpt : Option Password) (r : EnvelopeRecord)
    (hhex : H.hexDecode (H.hexEncode c.salt) = some c.salt)
    (h : Cipher.exportRecord H c pwOpt = .ok r) :
    H.hexDecode r.s = some c.salt := by
  obtain ⟨pw, hres, rfl⟩ := (okExport_iff H c pwOpt r).mp h
  exact hhex

/-- Witness for C4 on the concrete collaborator instance. -/
theorem c4_salt_stability_witness :
    Cipher.exportRecord Host0 (Cipher.generate Host0 ent0) (some "p") = .ok r0 ∧
    Host0.hexDecode r0.s = some (Cipher.generate Host0 ent0).salt := by
  have hexp : Cipher.exportRecord Host0 (Cipher.generate Host0 ent0) (some "p") = .ok r0 := by
    decide
  exact ⟨hexp, c4_salt_stability Host0 (Cipher.generate Host0 ent0) (some "p") r0 (by decide) hexp⟩

/-- C3: when any of the record's three fields is not valid hexadecimal
(the base16 codec modelled from the spec rejects it), import fails with
the decode error, a kind distinct from the two cryptographic failure
kinds; the theorem holds for arbitrary unwrap and spkiParse behavior,
so the failure involves no cryptographic call. -/
theorem c3_malformed_record (H : Host) (r : EnvelopeRecord) (pw : Password)
    (hH : ∀ t, H.hexDecode t = hexDecodeStr t)
    (hbad : hexDecodeStr r.k = none ∨ hexDecodeStr r.p = none ∨ hexDecodeStr r.s = none) :
    Cipher.importRecord H r (some pw) = .error .decodeError ∧
    CipherError.decodeError ≠ CipherError.unwrapError ∧
    CipherError.decodeError ≠ CipherError.spkiImportError := by
  refine ⟨?_, by decide, by decide⟩
  unfold Cipher.importRecord
  simp only [resolvePassword]
  rw [hH r.s, hH r.p, hH r.k]
  cases h1 : hexDecodeStr r.s with
  | none => simp
  | some salt =>
    cases h2 : hexDecodeStr r.p with
    | none => simp
    | some pub =>
      cases h3 : hexDecodeStr r.k with
      | none => simp
      | some wrapped =>
        exfalso
        rcases hbad with h | h | h
        · simp [h] at h3
        · simp [h] at h2
        · simp [h] at h1

/-- Witness for C3 at the spec's own example record, k not hex. -/
theorem c3_malformed_record_witness :
    Cipher.importRecord Host0 ⟨"not-hex", "00", "00"⟩ (some "p") = .error .decodeError ∧
    CipherError.decodeError ≠ CipherError.unwrapError ∧
    CipherError.decodeError ≠ CipherError.spkiImportError :=
  c3_malformed_record Host0 ⟨"not-hex", "00", "00"⟩ "p" (fun t => rfl) (Or.inl (by decide))

/-- C7: a supplied password is used as-is and the result does not
depend on the ambient recall value at all; an omitted password is
resolved by recall when one is available; and when none is, both
export and import fail with the password-unavailable error (for every
collaborator behavior, so no encoding or cryptographic step is
involved in that failure). -/
theorem c7_password_resolution (H : Host) (rc : Option Password) (c : Cipher)
    (r : EnvelopeRecord) (pw pw0 : Password) :
    (Cipher.exportRecord { H with recallPassword := rc } c (some pw) =
        Cipher.exportRecord H c (some pw) ∧
      Cipher.importRecord { H with recallPassword := rc } r (some pw) =
        Cipher.importRecord H r (some pw)) ∧
    (H.recallPassword = some pw0 →
      Cipher.exportRecord H c none = Cipher.exportRecord H c (some pw0) ∧
      Cipher.importRecord H r none = Cipher.importRecord H r (some pw0)) ∧
    (H.recallPassword = none →
      Cipher.exportRecord H c none = .error .passwordUnavailable ∧
      Cipher.importRecord H r none = .error .passwordUnavailable) := by
  refine ⟨⟨rfl, rfl⟩, fun h => ⟨?_, ?_⟩, fun h => ⟨?_, ?_⟩⟩
  · simp [Cipher.exportRecord, resolvePassword, h]
  · simp [Cipher.importRecord, resolvePassword, h]
  · simp [Cipher.exportRecord, resolvePassword, h]
  · simp [Cipher.importRecord, resolvePassword, h]

/-- Witness for C7: a failing recall on the recall-free instance, and
a successful ambient resolution on the instance remembering "q". -/
theorem c7_password_resolution_witness :
    Cipher.exportRecord Host0 (Cipher.generate Host0 ent0) none = .error .passwordUnavailable ∧
    Cipher.importRecord { Host0 with recallPassword := some "q" } r0 none =
      Cipher.importRecord { Host0 with recallPassword := some "q" } r0 (some "q") :=
  ⟨((c7_password_resolution Host0 none (Cipher.generate Host0 ent0) r0 "p" "p").2.2 rfl).1,
   ((c7_password_resolution { Host0 with recallPassword := some "q" } none
      (Cipher.generate Host0 ent0) r0 "p" "q").2.1 rfl).2⟩

/-- C8: the envelope is immutable: the constructor stores the three
fields it was given, and export, in state-passing form, returns the
envelope unchanged alongside the record the plain export computes;
generate and import construct fresh Cipher values (they return
constructor applications, never mutate an input). -/
theorem c8_envelope_immutable (H : Host) (c : Cipher) (pwOpt : Option Password)
    (r : EnvelopeRecord) (c' : Cipher)
    (h : Cipher.exportWithState H c pwOpt = .ok (r, c')) :
    c' = c ∧
    Cipher.exportRecord H c pwOpt = .ok r ∧
    (∀ pk pub s, (Cipher.mk pk pub s).privateKey = pk ∧
      (Cipher.mk pk pub s).publicKey = pub ∧ (Cipher.mk pk pub s).salt = s) := by
  unfold Cipher.exportWithState at h
  split at h
  · simp at h
  next pw heq =>
    simp only [Except.ok.injEq, Prod.mk.injEq] at h
    obtain ⟨hr, hc⟩ := h
    refine ⟨?_, ?_, fun pk pub s => ⟨rfl, rfl, rfl⟩⟩
    · rw [← hc]
    · simp [Cipher.exportRecord, heq, hr]

/-- Witness for C8 on the concrete collaborator instance. -/
theorem c8_envelope_immutable_witness :
    Cipher.exportWithState Host0 (Cipher.generate Host0 ent0) (some "p") =
      .ok (r0, Cipher.generate Host0 ent0) ∧
    Cipher.exportRecord Host0 (Cipher.generate Host0 ent0) (some "p") = .ok r0 := by
  have h : Cipher.exportWithState Host0 (Cipher.generate Host0 ent0) (some "p") =
      .ok (r0, Cipher.generate Host0 ent0) := by decide
  exact ⟨h, (c8_envelope_immutable Host0 (Cipher.generate Host0 ent0) (some "p") r0
    (Cipher.generate Host0 ent0) h).2.1⟩

/-- C9, refuted as stated: import performs no validation of the salt
length, so an envelope it produces can carry a salt of any length the
record's s field happens to encode; here a 4-hex-character s field
yields a 2-byte salt. -/
theorem c9_salt_length_counterexample :
    Cipher.importRecord Host0 ⟨"70", "00", "0000"⟩ (some "p") =
      .ok ⟨K0priv, ⟨"RSA-OAEP", "SHA-256", true, importKeyUsages, 0⟩, [0, 0]⟩ ∧
    ¬ (∀ c' : Cipher, Cipher.importRecord Host0 ⟨"70", "00", "0000"⟩ (some "p") = .ok c' →
        c'.salt.length = 16) := by
  constructor
  · decide
  · intro hall
    exact absurd (hall ⟨K0priv, ⟨"RSA-OAEP", "SHA-256", true, importKeyUsages, 0⟩, [0, 0]⟩
      (by decide)) (by decide)

/-- C9 as amended: an envelope produced by generate() always carries a
16-byte salt; an envelope produced by import() carries exactly the
bytes the record's s field hex-decodes to (so 16 bytes exactly when
the record's s field encodes 16 bytes, as any record produced by
export of a generated envelope does — import itself performs no length
validation). -/
theorem c9_salt_length_amended (H : Host) (ent : Entropy) :
    (Cipher.generate H ent).salt.length = 16 ∧
    ∀ r pwOpt c', Cipher.importRecord H r pwOpt = .ok c' →
      H.hexDecode r.s = some c'.salt := by
  constructor
  · simp [Cipher.generate, getRandomValues]
  · intro r pwOpt c' h
    obtain ⟨pw, salt, pub, wrapped, priv, m, _, h1, _, _, _, _, rfl⟩ :=
      (okImport_iff H r pwOpt c').mp h
    exact h1

/-- Witness for the amended C9 on the concrete collaborator
instance. -/
theorem c9_salt_length_amended_witness :
    (Cipher.generate Host0 ent0).salt.length = 16 ∧
    Host0.hexDecode r0.s = some salt0 :=
  ⟨(c9_salt_length_amended Host0 ent0).1,
   (c9_salt_length_amended Host0 ent0).2 r0 (some "p")
     ⟨K0priv, ⟨"RSA-OAEP", "SHA-256", true, importKeyUsages, 0⟩, salt0⟩ (by decide)⟩

/-- C1: for any password, importing the export of a generated envelope
with the same password succeeds; the resulting public key re-exports
to bytes identical to the original's SPKI export, and the resulting
private key decrypts every ciphertext produced with the original
public key — under the claim's bracketed assumptions on the
collaborators, taken here at the instances the round trip uses: the
codec's decode inverts its encode on the three exported fields,
unwrap with the same password and salt returns the wrapped private
key, and SPKI parsing inverts SPKI serialization on the exported
public key (plus the original pair being a matching
encrypt/decrypt pair). -/
theorem c1_round_trip (H : Host) (ent : Entropy) (pw : Password) (c : Cipher)
    (hc : c = Cipher.generate H ent)
    (hk : H.hexDecode (H.hexEncode (H.wrap pw c.privateKey c.salt)) =
      some (H.wrap pw c.privateKey c.salt))
    (hp : H.hexDecode (H.hexEncode (subtleExportKey H c.publicKey)) =
      some (subtleExportKey H c.publicKey))
    (hs : H.hexDecode (H.hexEncode c.salt) = some c.salt)
    (hw : H.unwrap pw (H.wrap pw c.privateKey c.salt) c.salt = some c.privateKey)
    (hspki : H.spkiParse (subtleExportKey H c.publicKey) = some c.publicKey.material)
    (hpair : ∀ msg, H.decrypt c.privateKey.material (H.encrypt c.publicKey.material msg) =
      some msg) :
    ∃ r c', Cipher.exportRecord H c (some pw) = .ok r ∧
      Cipher.importRecord H r (some pw) = .ok c' ∧
      subtleExportKey H c'.publicKey = subtleExportKey H c.publicKey ∧
      ∀ msg, H.decrypt c'.privateKey.material (H.encrypt c.publicKey.material msg) =
        some msg := by
  refine ⟨⟨H.hexEncode (H.wrap pw c.privateKey c.salt),
           H.hexEncode (subtleExportKey H c.publicKey),
           H.hexEncode c.salt⟩,
          ⟨c.privateKey, ⟨"RSA-OAEP", "SHA-256", true, importKeyUsages, c.publicKey.material⟩,
           c.salt⟩, ?_, ?_, rfl, hpair⟩
  · exact (okExport_iff H c (some pw) _).mpr ⟨pw, rfl, rfl⟩
  · exact (okImport_iff H _ (some pw) _).mpr
      ⟨pw, c.salt, subtleExportKey H c.publicKey, H.wrap pw c.privateKey c.salt,
       c.privateKey, c.publicKey.material, rfl, hs, hp, hk, hw, hspki, rfl⟩

/-- Witness for C1 on the concrete collaborator instance with
password "p". -/
theorem c1_round_trip_witness :
    ∃ r c', Cipher.exportRecord Host0 (Cipher.generate Host0 ent0) (some "p") = .ok r ∧
      Cipher.importRecord Host0 r (some "p") = .ok c' ∧
      subtleExportKey Host0 c'.publicKey =
        subtleExportKey Host0 (Cipher.generate Host0 ent0).publicKey ∧
      ∀ msg, Host0.decrypt c'.privateKey.material
        (Host0.encrypt (Cipher.generate Host0 ent0).publicKey.material msg) = some msg :=
  c1_round_trip Host0 ent0 "p" (Cipher.generate Host0 ent0) rfl
    (by decide) (by decide) (by decide) (by decide) (by decide) (fun msg => rfl)

/-- C2: importing the export of a generated envelope with a different
password fails with the unwrap error and never yields an envelope,
given the claim's assumption that the provider's unwrap fails on the
wrong password (taken at the wrapped bytes the export produced), and
the codec inverting itself on the three exported fields. -/
theorem c2_wrong_password (H : Host) (ent : Entropy) (P1 P2 : Password) (c : Cipher)
    (hc : c = Cipher.generate H ent)
    (hne : P1 ≠ P2)
    (hk : H.hexDecode (H.hexEncode (H.wrap P1 c.privateKey c.salt)) =
      some (H.wrap P1 c.privateKey c.salt))
    (hp : H.hexDecode (H.hexEncode (subtleExportKey H c.publicKey)) =
      some (subtleExportKey H c.publicKey))
    (hs : H.hexDecode (H.hexEncode c.salt) = some c.salt)
    (hw : H.unwrap P2 (H.wrap P1 c.privateKey c.salt) c.salt = none)
    (hspki : H.spkiParse (subtleExportKey H c.publicKey) = some c.publicKey.material) :
    ∃ r, Cipher.exportRecord H c (some P1) = .ok r ∧
      Cipher.importRecord H r (some P2) = .error .unwrapError ∧
      ∀ c', Cipher.importRecord H r (some P2) ≠ .ok c' := by
  have himp : Cipher.importRecord H
      ⟨H.hexEncode (H.wrap P1 c.privateKey c.salt),
       H.hexEncode (subtleExportKey H c.publicKey),
       H.hexEncode c.salt⟩ (some P2) = .error .unwrapError := by
    simp [Cipher.importRecord, resolvePassword, hs, hp, hk, hw]
  refine ⟨⟨H.hexEncode (H.wrap P1 c.privateKey c.salt),
           H.hexEncode (subtleExportKey H c.publicKey),
           H.hexEncode c.salt⟩,
          (okExport_iff H c (some P1) _).mpr ⟨P1, rfl, rfl⟩, himp, ?_⟩
  intro c' hok
  rw [himp] at hok
  cases hok

/-- Witness for C2 on the concrete collaborator instance with
passwords "P1" and "P2". -/
theorem c2_wrong_password_witness :
    ∃ r, Cipher.exportRecord Host0 (Cipher.generate Host0 ent0) (some "P1") = .ok r ∧
      Cipher.importRecord Host0 r (some "P2") = .error .unwrapError ∧
      ∀ c', Cipher.importRecord Host0 r (some "P2") ≠ .ok c' :=
  c2_wrong_password Host0 ent0 "P1" "P2" (Cipher.generate Host0 ent0) rfl
    (by decide) (by decide) (by decide) (by decide) (by decide) (by decide)
